import Mathlib

/-!
Verification development for the clawdbot-railway-template repository.

The JavaScript sources are shallowly embedded as executable Lean
definitions:

* `src/src/services/EncryptionService.js` — the Credential Vault
  (AES-256-GCM blob layout, key derivation, encrypt/decrypt slicing);
* the Bot model (`BotModel` in `src/models/Bot.js`) — record store
  operations over an explicit database state;
* `src/src/controllers/botController.js` — the HTTP controller layer
  (quota check, start/stop guards, fire-and-forget provisioning);
* `src/src/services/RailwayProvisionerV2.js` and the GraphQL
  `RailwayProvisioner` — provisioning backends, with their external
  API calls recorded in an explicit effect trace;
* the in-process `SimpleBotRunner` and the Telegram webhook route —
  inbound dispatch and the rolling conversation history.

Stateful JavaScript is modelled by explicit state passing; every
external call (database, Railway API, Telegram, OpenAI) either appears
in a returned effect trace or is an oracle parameter.  Fallible
operations return `Option`/`Except`.
-/

/-! ## Credential Vault (`EncryptionService.js`)

Bytes are modelled as natural numbers; a ciphertext blob is a
`List Nat`.  The base64 transport applied by `Buffer.toString('base64')`
and inverted by `Buffer.from(_, 'base64')` is an external bijection on
byte strings and is elided: blobs are kept as byte lists.

The AES-256-GCM primitive itself is Node's `crypto` library, external
to the repository.  It is modelled as an ideal AEAD: encryption XORs
the plaintext with a keystream determined by key and IV, and the
authentication tag is an injective fingerprint of key, IV and
ciphertext (the idealisation of a MAC that admits no forgery).  What
is embedded faithfully from the repository's own code is the blob
layout `IV (16 bytes) ‖ auth tag (16 bytes) ‖ ciphertext`, the
slicing performed by `decrypt`, the tag comparison, and the key
derivation `KEY.padEnd(32, '!').slice(0, 32)`. -/

/-- Injective encoding of a byte list into a single natural number,
used to build the ideal authentication tag. -/
def encodeList : List Nat → Nat
  | [] => 0
  | a :: l => Nat.pair a (encodeList l) + 1

theorem encodeList_injective : Function.Injective encodeList := by
  intro l₁
  induction l₁ with
  | nil =>
    intro l₂ h
    cases l₂ with
    | nil => rfl
    | cons b m => simp [encodeList] at h
  | cons a l ih =>
    intro l₂ h
    cases l₂ with
    | nil => simp [encodeList] at h
    | cons b m =>
      simp only [encodeList, Nat.add_right_cancel_iff] at h
      rcases Nat.pair_eq_pair.mp h with ⟨h₁, h₂⟩
      rw [h₁, ih h₂]

/-- Ideal GCM authentication tag over key, IV and ciphertext: an
injective fingerprint (model of the external MAC). -/
def tagOf (key iv ct : List Nat) : Nat :=
  Nat.pair (encodeList key) (Nat.pair (encodeList iv) (encodeList ct))

theorem tagOf_inj_iv {key iv iv' ct : List Nat}
    (h : tagOf key iv ct = tagOf key iv' ct) : iv = iv' := by
  unfold tagOf at h
  rcases Nat.pair_eq_pair.mp h with ⟨-, h₂⟩
  rcases Nat.pair_eq_pair.mp h₂ with ⟨h₃, -⟩
  exact encodeList_injective h₃

theorem tagOf_inj_ct {key iv ct ct' : List Nat}
    (h : tagOf key iv ct = tagOf key iv ct') : ct = ct' := by
  unfold tagOf at h
  rcases Nat.pair_eq_pair.mp h with ⟨-, h₂⟩
  rcases Nat.pair_eq_pair.mp h₂ with ⟨-, h₃⟩
  exact encodeList_injective h₃

/-- The 16-byte tag field stored in the blob: the ideal tag in the
first position, padded with zeros to the GCM tag width of 16. -/
def tagBytes (key iv ct : List Nat) : List Nat :=
  tagOf key iv ct :: List.replicate 15 0

theorem tagBytes_length (key iv ct : List Nat) :
    (tagBytes key iv ct).length = 16 := by
  simp [tagBytes]

/-- Keystream of the ideal stream cipher, determined by key and IV
(model of the AES-CTR keystream inside GCM). -/
def keyStream (key iv : List Nat) (i : Nat) : Nat :=
  Nat.pair (encodeList key) (Nat.pair (encodeList iv) i)

/-- XOR a byte list against a keystream starting at index `i`. -/
def xorStream (f : Nat → Nat) : Nat → List Nat → List Nat
  | _, [] => []
  | i, b :: rest => (b ^^^ f i) :: xorStream f (i + 1) rest

theorem xorStream_xorStream (f : Nat → Nat) (i : Nat) (l : List Nat) :
    xorStream f i (xorStream f i l) = l := by
  induction l generalizing i with
  | nil => rfl
  | cons b rest ih =>
    simp [xorStream, ih, Nat.xor_cancel_right]

theorem xorStream_length (f : Nat → Nat) (i : Nat) (l : List Nat) :
    (xorStream f i l).length = l.length := by
  induction l generalizing i with
  | nil => rfl
  | cons b rest ih => simp [xorStream, ih]

/-- Key derivation from `EncryptionService`'s constructor:
`Buffer.from(ENCRYPTION.KEY.padEnd(32, '!').slice(0, 32))`.
`33` is the byte value of the pad character. -/
def deriveKey (secret : List Nat) : List Nat :=
  (secret ++ List.replicate (32 - secret.length) 33).take 32

/-- `EncryptionService.encrypt`: encrypt `text` under `key` with the
random 16-byte IV `iv`, returning the blob
`iv ++ authTag ++ ciphertext` (the base64 wrapping is elided). -/
def encrypt (key iv text : List Nat) : List Nat :=
  let ct := xorStream (keyStream key iv) 0 text
  iv ++ (tagBytes key iv ct ++ ct)

/-- `EncryptionService.decrypt`: slice the blob into IV (bytes 0–16),
auth tag (bytes 16–32) and ciphertext (rest), verify the tag, and
return the plaintext; tag mismatch is the thrown decryption error,
modelled as `none`. -/
def decrypt (key data : List Nat) : Option (List Nat) :=
  let iv := data.take 16
  let tagB := (data.drop 16).take 16
  let ct := data.drop 32
  if tagB = tagBytes key iv ct then
    some (xorStream (keyStream key iv) 0 ct)
  else
    none

theorem encrypt_length (key iv pt : List Nat) :
    (encrypt key iv pt).length = iv.length + (16 + pt.length) := by
  simp [encrypt, tagBytes, xorStream_length]
  omega

theorem decrypt_encrypt (key iv pt : List Nat) (hiv : iv.length = 16) :
    decrypt key (encrypt key iv pt) = some pt := by
  unfold encrypt decrypt
  simp only []
  set ct := xorStream (keyStream key iv) 0 pt with hct
  have htake : (iv ++ (tagBytes key iv ct ++ ct)).take 16 = iv :=
    List.take_left' hiv
  have hdrop : (iv ++ (tagBytes key iv ct ++ ct)).drop 16 =
      tagBytes key iv ct ++ ct :=
    List.drop_left' hiv
  have htag : (tagBytes key iv ct ++ ct).take 16 = tagBytes key iv ct :=
    List.take_left' (tagBytes_length key iv ct)
  have hdrop32 : (iv ++ (tagBytes key iv ct ++ ct)).drop 32 = ct := by
    rw [← List.append_assoc]
    exact List.drop_left' (by simp [tagBytes, hiv])
  rw [htake, hdrop, htag, hdrop32, if_pos rfl, hct, xorStream_xorStream]

/-- Claim C1: for every configured secret, every fresh 16-byte IV and
every plaintext byte string, decrypting the result of `encrypt` under
the derived 32-byte key returns exactly the original plaintext. -/
theorem c1_vault_roundtrip (secret iv pt : List Nat) (hiv : iv.length = 16) :
    decrypt (deriveKey secret) (encrypt (deriveKey secret) iv pt) = some pt :=
  decrypt_encrypt (deriveKey secret) iv pt hiv

theorem c1_vault_roundtrip_witness :
    decrypt (deriveKey [7, 7])
        (encrypt (deriveKey [7, 7])
          [0, 1, 2, 3, 4, 5, 6, 7, 8, 9, 10, 11, 12, 13, 14, 15]
          [104, 105]) =
      some [104, 105] :=
  c1_vault_roundtrip [7, 7]
    [0, 1, 2, 3, 4, 5, 6, 7, 8, 9, 10, 11, 12, 13, 14, 15]
    [104, 105] (by decide)

theorem set_ne_of_get_ne {α} (l : List α) (i : Nat) (v : α)
    (h : i < l.length) (hv : v ≠ l.get ⟨i, h⟩) : l.set i v ≠ l := by
  intro heq
  apply hv
  have hset : (l.set i v)[i]? = some v := List.getElem?_set_self h
  rw [heq, List.getElem?_eq_getElem h] at hset
  have hget : l.get ⟨i, h⟩ = l[i] := rfl
  rw [hget]
  exact (Option.some_injective _ hset).symm

theorem decrypt_append_16_16 (key iv tb ct : List Nat)
    (hiv : iv.length = 16) (htb : tb.length = 16) :
    decrypt key (iv ++ (tb ++ ct)) =
      if tb = tagBytes key iv ct then
        some (xorStream (keyStream key iv) 0 ct)
      else none := by
  unfold decrypt
  simp only []
  rw [List.take_left' hiv, List.drop_left' hiv, List.take_left' htb]
  have hdrop32 : (iv ++ (tb ++ ct)).drop 32 = ct := by
    rw [← List.append_assoc]
    exact List.drop_left' (by simp [hiv, htb])
  rw [hdrop32]


theorem decrypt_set_ne (key iv ct : List Nat) (i v : Nat)
    (hiv : iv.length = 16)
    (hi : i < (iv ++ (tagBytes key iv ct ++ ct)).length)
    (hv : v ≠ (iv ++ (tagBytes key iv ct ++ ct)).get ⟨i, hi⟩) :
    decrypt key ((iv ++ (tagBytes key iv ct ++ ct)).set i v) = none := by
  have hgetv : v ≠ (iv ++ (tagBytes key iv ct ++ ct))[i] := hv
  rcases Nat.lt_or_ge i 16 with hlt | hge16
  · -- mutation inside the IV region
    have hivlt : i < iv.length := by omega
    have hset : (iv ++ (tagBytes key iv ct ++ ct)).set i v =
        iv.set i v ++ (tagBytes key iv ct ++ ct) :=
      List.set_append_left i v hivlt
    have hne : iv.set i v ≠ iv := by
      apply set_ne_of_get_ne iv i v hivlt
      have h1 : (iv ++ (tagBytes key iv ct ++ ct))[i] = iv[i] :=
        List.getElem_append_left hivlt
      rw [h1] at hgetv
      exact hgetv
    rw [hset,
      decrypt_append_16_16 key (iv.set i v) (tagBytes key iv ct) ct
        (by simp [hiv]) (tagBytes_length key iv ct)]
    rw [if_neg]
    intro heq
    have hhead : tagOf key iv ct = tagOf key (iv.set i v) ct := by
      have h2 := congrArg (fun l => l.headI) heq
      simpa [tagBytes] using h2
    exact hne (tagOf_inj_iv hhead.symm)
  · rcases Nat.lt_or_ge i 32 with hlt32 | hge32
    · -- mutation inside the auth tag region
      have hile : iv.length ≤ i := by omega
      have hset : (iv ++ (tagBytes key iv ct ++ ct)).set i v =
          iv ++ (tagBytes key iv ct ++ ct).set (i - iv.length) v :=
        List.set_append_right i v hile
      have hj : i - iv.length < (tagBytes key iv ct).length := by
        rw [tagBytes_length]; omega
      have hset2 : (tagBytes key iv ct ++ ct).set (i - iv.length) v =
          (tagBytes key iv ct).set (i - iv.length) v ++ ct :=
        List.set_append_left _ v hj
      have hmid : i - iv.length < (tagBytes key iv ct ++ ct).length := by
        have h3 := hj
        rw [tagBytes_length] at h3
        rw [List.length_append, tagBytes_length]
        omega
      have hne : (tagBytes key iv ct).set (i - iv.length) v ≠
          tagBytes key iv ct := by
        apply set_ne_of_get_ne _ _ v hj
        have h1 : (iv ++ (tagBytes key iv ct ++ ct))[i] =
            (tagBytes key iv ct ++ ct)[i - iv.length] :=
          List.getElem_append_right hile
        have h2 : (tagBytes key iv ct ++ ct)[i - iv.length] =
            (tagBytes key iv ct)[i - iv.length] :=
          List.getElem_append_left hj
        rw [h1, h2] at hgetv
        exact hgetv
      rw [hset, hset2,
        decrypt_append_16_16 key iv _ ct hiv
          (by simp [List.length_set, tagBytes_length])]
      rw [if_neg]
      intro heq
      exact hne heq
    · -- mutation inside the ciphertext region
      have hile : iv.length ≤ i := by omega
      have hset : (iv ++ (tagBytes key iv ct ++ ct)).set i v =
          iv ++ (tagBytes key iv ct ++ ct).set (i - iv.length) v :=
        List.set_append_right i v hile
      have hile2 : (tagBytes key iv ct).length ≤ i - iv.length := by
        rw [tagBytes_length]; omega
      have hset2 : (tagBytes key iv ct ++ ct).set (i - iv.length) v =
          tagBytes key iv ct ++
            ct.set (i - iv.length - (tagBytes key iv ct).length) v :=
        List.set_append_right _ v hile2
      have hk : i - iv.length - (tagBytes key iv ct).length < ct.length := by
        have hlen : (iv ++ (tagBytes key iv ct ++ ct)).length =
            iv.length + ((tagBytes key iv ct).length + ct.length) := by
          simp
        rw [hlen, tagBytes_length] at hi
        have := tagBytes_length key iv ct
        omega
      have hmid : i - iv.length < (tagBytes key iv ct ++ ct).length := by
        have h3 := hk
        rw [tagBytes_length] at h3
        rw [List.length_append, tagBytes_length]
        omega
      have hne : ct.set (i - iv.length - (tagBytes key iv ct).length) v ≠
          ct := by
        apply set_ne_of_get_ne _ _ v hk
        have h1 : (iv ++ (tagBytes key iv ct ++ ct))[i] =
            (tagBytes key iv ct ++ ct)[i - iv.length] :=
          List.getElem_append_right hile
        have h2 : (tagBytes key iv ct ++ ct)[i - iv.length] =
            ct[i - iv.length - (tagBytes key iv ct).length] :=
          List.getElem_append_right hile2
        rw [h1, h2] at hgetv
        exact hgetv
      rw [hset, hset2,
        decrypt_append_16_16 key iv _ _ hiv (tagBytes_length key iv ct)]
      rw [if_neg]
      intro heq
      have hhead : tagOf key iv ct =
          tagOf key iv
            (ct.set (i - iv.length - (tagBytes key iv ct).length) v) := by
        have h2 := congrArg (fun l => l.headI) heq
        simpa [tagBytes] using h2
      exact hne (tagOf_inj_ct hhead.symm)

/-- Claim C2: for every blob produced by `encrypt` and every mutation
of any single byte of it, `decrypt` fails (the thrown `CryptoError`,
modelled as `none`); it never returns a different but valid-looking
plaintext. -/
theorem c2_vault_tamper (secret iv pt : List Nat) (i v : Nat)
    (hiv : iv.length = 16)
    (hi : i < (encrypt (deriveKey secret) iv pt).length)
    (hv : v ≠ (encrypt (deriveKey secret) iv pt).get ⟨i, hi⟩) :
    decrypt (deriveKey secret) ((encrypt (deriveKey secret) iv pt).set i v) =
      none :=
  decrypt_set_ne (deriveKey secret) iv
    (xorStream (keyStream (deriveKey secret) iv) 0 pt) i v hiv hi hv

theorem c2_vault_tamper_witness :
    decrypt (deriveKey [7, 7])
        ((encrypt (deriveKey [7, 7])
          [0, 1, 2, 3, 4, 5, 6, 7, 8, 9, 10, 11, 12, 13, 14, 15]
          [104, 105]).set 0 9) = none :=
  c2_vault_tamper [7, 7]
    [0, 1, 2, 3, 4, 5, 6, 7, 8, 9, 10, 11, 12, 13, 14, 15]
    [104, 105] 0 9 (by decide) (by decide) (by decide)

/-! ## Bot Record Store (`BotModel`, `src/models/Bot.js`)

A bot row mirrors the columns of the `bots` table.  The two encrypted
credential columns are `Option String`: `some c` is a stored
ciphertext, and `none` models the column being absent from a returned
object (the sanitized projection deletes the keys; `findByUser` simply
does not select them).  Timestamps are not modelled (the claims do not
mention them) and default to `0`.  The database is a list of rows plus
the next fresh id; every operation returns the new state, the list of
SQL commands it issued, and its result. -/

structure BotRow where
  id : Nat
  user_id : Nat
  name : String
  platform : String
  platform_token_encrypted : Option String
  ai_provider : String
  ai_token_encrypted : Option String
  ai_model : String
  system_prompt : String
  config_json : String
  status : String
  railway_service_id : Option String
  webhook_url : Option String
  internal_port : Option Nat
  process_pid : Option Nat
  memory_usage_mb : Nat
  cpu_usage_percent : Nat
  total_messages : Nat
  last_activity_at : Nat
  last_started_at : Nat
  created_at : Nat
  updated_at : Nat
deriving DecidableEq, Repr

structure BotDB where
  rows : List BotRow
  nextId : Nat
deriving DecidableEq, Repr

/-- A JavaScript value appearing in an `updates` object. -/
inductive JsVal where
  | str (s : String)
  | num (n : Nat)
  | nul
deriving DecidableEq, Repr

/-- JavaScript truthiness for the values `update` tests with
`if (updates.ai_token)`. -/
def JsVal.truthy : JsVal → Bool
  | .str s => s ≠ ""
  | .num n => n ≠ 0
  | .nul => false

def JsVal.asString : JsVal → String
  | .str s => s
  | .num n => toString n
  | .nul => ""

def JsVal.asOptStr : JsVal → Option String
  | .str s => some s
  | .num n => some (toString n)
  | .nul => none

def JsVal.asOptNat : JsVal → Option Nat
  | .str s => s.toNat?
  | .num n => some n
  | .nul => none

def JsVal.asNat : JsVal → Nat
  | .str s => s.toNat?.getD 0
  | .num n => n
  | .nul => 0

/-- `BotModel.sanitize`: remove the two encrypted credential columns
from a row before it is exposed. -/
def sanitize (b : BotRow) : BotRow :=
  { b with platform_token_encrypted := none, ai_token_encrypted := none }

/-- Modelled from the spec: the `bots` table schema (the migration
files are not in the source tree) assigns new rows the initial
lifecycle status — "create → `deploying` (record created before the
external resource exists)". -/
def initialStatus : String := "deploying"

structure CreateInput where
  userId : Nat
  name : String
  platform : String
  platformToken : String
  aiProvider : String
  aiToken : String
  aiModel : String
  systemPrompt : String
  configJson : String
deriving DecidableEq, Repr

/-- The row `BotModel.create` inserts: both credential fields are
stored only in encrypted form (`enc` is `encryption.encrypt`). -/
def createdRow (enc : String → String) (db : BotDB) (inp : CreateInput) :
    BotRow :=
  { id := db.nextId
    user_id := inp.userId
    name := inp.name
    platform := inp.platform
    platform_token_encrypted := some (enc inp.platformToken)
    ai_provider := inp.aiProvider
    ai_token_encrypted := some (enc inp.aiToken)
    ai_model := inp.aiModel
    system_prompt := inp.systemPrompt
    config_json := inp.configJson
    status := initialStatus
    railway_service_id := none
    webhook_url := none
    internal_port := none
    process_pid := none
    memory_usage_mb := 0
    cpu_usage_percent := 0
    total_messages := 0
    last_activity_at := 0
    last_started_at := 0
    created_at := 0
    updated_at := 0 }

namespace BotModel

/-- `BotModel.create`: encrypt both tokens, insert the row, return the
sanitized projection of the inserted row. -/
def create (enc : String → String) (db : BotDB) (inp : CreateInput) :
    BotDB × List String × BotRow :=
  (⟨db.rows ++ [createdRow enc db inp], db.nextId + 1⟩,
    ["INSERT INTO bots"],
    sanitize (createdRow enc db inp))

/-- `BotModel.findById`: first row with the id, sanitized. -/
def findById (db : BotDB) (id : Nat) : Option BotRow :=
  (db.rows.find? (fun r => r.id = id)).map sanitize

/-- `BotModel.findByIdWithTokens`: sanitized row plus the decrypted
tokens (`dec` is `encryption.decrypt`); decryption of a missing
column is the thrown error, modelled as `none`. -/
def findByIdWithTokens (dec : String → String) (db : BotDB) (id : Nat) :
    Option (BotRow × String × String) :=
  match db.rows.find? (fun r => r.id = id) with
  | none => none
  | some r =>
    match r.platform_token_encrypted, r.ai_token_encrypted with
    | some p, some a => some (sanitize r, dec p, dec a)
    | _, _ => none

/-- `BotModel.findByServiceId`: first row with the Railway service id,
sanitized. -/
def findByServiceId (db : BotDB) (sid : String) : Option BotRow :=
  (db.rows.find? (fun r => r.railway_service_id = some sid)).map sanitize

/-- The column projection of `BotModel.findByUser`'s SELECT: columns
not in the select list are absent, modelled by `none` / neutral
values. -/
def listProjection (b : BotRow) : BotRow :=
  { b with
    platform_token_encrypted := none
    ai_token_encrypted := none
    system_prompt := ""
    config_json := ""
    railway_service_id := none
    webhook_url := none
    process_pid := none
    cpu_usage_percent := 0
    last_started_at := 0 }

/-- `BotModel.findByUser`: the user's rows under the explicit column
list (row order by `created_at` is not modelled). -/
def findByUser (db : BotDB) (uid : Nat) : List BotRow :=
  (db.rows.filter (fun r => r.user_id = uid)).map listProjection

/-- The `allowedFields` list of `BotModel.update`. -/
def allowedFields : List String :=
  ["name", "status", "ai_provider", "ai_model", "system_prompt",
   "config_json", "internal_port", "process_pid", "memory_usage_mb",
   "cpu_usage_percent", "last_started_at", "last_activity_at",
   "total_messages", "railway_service_id", "webhook_url"]

/-- One `key = $n` assignment of `BotModel.update`'s SET clause. -/
def applyField (r : BotRow) (kv : String × JsVal) : BotRow :=
  if kv.1 = "name" then { r with name := kv.2.asString }
  else if kv.1 = "status" then { r with status := kv.2.asString }
  else if kv.1 = "ai_provider" then { r with ai_provider := kv.2.asString }
  else if kv.1 = "ai_model" then { r with ai_model := kv.2.asString }
  else if kv.1 = "system_prompt" then { r with system_prompt := kv.2.asString }
  else if kv.1 = "config_json" then { r with config_json := kv.2.asString }
  else if kv.1 = "internal_port" then { r with internal_port := kv.2.asOptNat }
  else if kv.1 = "process_pid" then { r with process_pid := kv.2.asOptNat }
  else if kv.1 = "memory_usage_mb" then { r with memory_usage_mb := kv.2.asNat }
  else if kv.1 = "cpu_usage_percent" then
    { r with cpu_usage_percent := kv.2.asNat }
  else if kv.1 = "last_started_at" then
    { r with last_started_at := kv.2.asNat }
  else if kv.1 = "last_activity_at" then
    { r with last_activity_at := kv.2.asNat }
  else if kv.1 = "total_messages" then { r with total_messages := kv.2.asNat }
  else if kv.1 = "railway_service_id" then
    { r with railway_service_id := kv.2.asOptStr }
  else if kv.1 = "webhook_url" then { r with webhook_url := kv.2.asOptStr }
  else r

/-- The allowed entries of an `updates` object (the SET fields apart
from the encrypted-token handling). -/
def updFields (updates : List (String × JsVal)) : List (String × JsVal) :=
  updates.filter (fun kv => allowedFields.contains kv.1)

/-- The encrypted value pushed for a truthy `updates.ai_token`. -/
def updAiTokEnc (enc : String → String)
    (updates : List (String × JsVal)) : Option String :=
  match updates.lookup "ai_token" with
  | some v => if v.truthy then some (enc v.asString) else none
  | none => none

/-- The combined effect of the SET clause on one row. -/
def updApplyAll (enc : String → String) (updates : List (String × JsVal))
    (r : BotRow) : BotRow :=
  match updAiTokEnc enc updates with
  | some e =>
    { (updFields updates).foldl applyField r with
      ai_token_encrypted := some e }
  | none => (updFields updates).foldl applyField r

/-- `BotModel.update`: collect the allowed fields of `updates`, handle
a truthy `ai_token` by storing its encryption, and return `null`
without touching the database when nothing is to be set. -/
def update (enc : String → String) (db : BotDB) (id : Nat)
    (updates : List (String × JsVal)) :
    BotDB × List String × Option BotRow :=
  if (updFields updates).isEmpty ∧ updAiTokEnc enc updates = none then
    (db, [], none)
  else
    (⟨db.rows.map (fun r =>
        if r.id = id then updApplyAll enc updates r else r), db.nextId⟩,
      ["UPDATE bots"],
      (db.rows.find? (fun r => r.id = id)).map
        (fun r => sanitize (updApplyAll enc updates r)))

/-- `BotModel.countByUser`. -/
def countByUser (db : BotDB) (uid : Nat) : Nat :=
  (db.rows.filter (fun r => r.user_id = uid)).length

/-- `BotModel.incrementMessages`. -/
def incrementMessages (db : BotDB) (id : Nat) : BotDB × List String :=
  (⟨db.rows.map (fun r =>
      if r.id = id then { r with total_messages := r.total_messages + 1 }
      else r), db.nextId⟩,
    ["UPDATE bots"])

/-- `BotModel.delete`. -/
def remove (db : BotDB) (id : Nat) : BotDB × List String :=
  (⟨db.rows.filter (fun r => ¬ r.id = id), db.nextId⟩, ["DELETE FROM bots"])

end BotModel

theorem sanitize_strips (b : BotRow) :
    (sanitize b).platform_token_encrypted = none ∧
      (sanitize b).ai_token_encrypted = none :=
  ⟨rfl, rfl⟩

/-- Claim C3: every Bot value returned by the store's serialized read
and write paths (`create`, `findById`, `findByUser`, `findByServiceId`,
`update`) carries neither encrypted credential column, and `create`
inserts a row that holds both credentials only in encrypted form — the
only record it makes visible stores ciphertexts. -/
theorem c3_store_encrypts_and_sanitizes (enc : String → String)
    (db : BotDB) (inp : CreateInput) (id uid : Nat) (sid : String)
    (upd : List (String × JsVal)) :
    ((BotModel.create enc db inp).2.2.platform_token_encrypted = none ∧
      (BotModel.create enc db inp).2.2.ai_token_encrypted = none) ∧
    ((BotModel.create enc db inp).1.rows =
        db.rows ++ [createdRow enc db inp] ∧
      (createdRow enc db inp).platform_token_encrypted =
        some (enc inp.platformToken) ∧
      (createdRow enc db inp).ai_token_encrypted =
        some (enc inp.aiToken)) ∧
    (∀ b, BotModel.findById db id = some b →
      b.platform_token_encrypted = none ∧ b.ai_token_encrypted = none) ∧
    (∀ b, b ∈ BotModel.findByUser db uid →
      b.platform_token_encrypted = none ∧ b.ai_token_encrypted = none) ∧
    (∀ b, BotModel.findByServiceId db sid = some b →
      b.platform_token_encrypted = none ∧ b.ai_token_encrypted = none) ∧
    (∀ b, (BotModel.update enc db id upd).2.2 = some b →
      b.platform_token_encrypted = none ∧ b.ai_token_encrypted = none) := by
  refine ⟨⟨rfl, rfl⟩, ⟨rfl, rfl, rfl⟩, ?_, ?_, ?_, ?_⟩
  · intro b h
    unfold BotModel.findById at h
    rcases Option.map_eq_some'.mp h with ⟨r, -, hr⟩
    rw [← hr]
    exact sanitize_strips r
  · intro b h
    unfold BotModel.findByUser at h
    rcases List.mem_map.mp h with ⟨r, -, hr⟩
    rw [← hr]
    exact ⟨rfl, rfl⟩
  · intro b h
    unfold BotModel.findByServiceId at h
    rcases Option.map_eq_some'.mp h with ⟨r, -, hr⟩
    rw [← hr]
    exact sanitize_strips r
  · intro b h
    unfold BotModel.update at h
    split at h
    · simp at h
    · rcases Option.map_eq_some'.mp h with ⟨r, -, hr⟩
      rw [← hr]
      exact sanitize_strips _

/-- Sample encryption function for concrete evaluations. -/
def sampleEnc : String → String := fun s => "enc:" ++ s

def sampleInput : CreateInput :=
  { userId := 1
    name := "alpha"
    platform := "telegram"
    platformToken := "tg-token"
    aiProvider := "OPENAI"
    aiToken := "sk-test"
    aiModel := "gpt-4o"
    systemPrompt := ""
    configJson := "" }

/-- A one-bot database obtained by creating `sampleInput` in an empty
store. -/
def sampleDb : BotDB := (BotModel.create sampleEnc ⟨[], 1⟩ sampleInput).1

theorem c3_store_encrypts_and_sanitizes_witness :
    (sanitize (createdRow sampleEnc ⟨[], 1⟩ sampleInput)).platform_token_encrypted =
        none ∧
      (sanitize (createdRow sampleEnc ⟨[], 1⟩ sampleInput)).ai_token_encrypted =
        none :=
  (c3_store_encrypts_and_sanitizes sampleEnc sampleDb sampleInput 1 1 "s"
      []).2.2.1
    (sanitize (createdRow sampleEnc ⟨[], 1⟩ sampleInput)) (by decide)

/-- Claim C10: `BotModel.update` with an updates object that contains
no allowed field and no `ai_token` key returns `null`, issues no SQL,
and leaves the database unchanged. -/
theorem c10_update_empty_noop (enc : String → String) (db : BotDB)
    (id : Nat) (upd : List (String × JsVal))
    (hallowed : ∀ kv ∈ upd, BotModel.allowedFields.contains kv.1 = false)
    (htok : upd.lookup "ai_token" = none) :
    BotModel.update enc db id upd = (db, [], none) := by
  have hfil : BotModel.updFields upd = [] := by
    unfold BotModel.updFields
    rw [List.filter_eq_nil_iff]
    intro kv hkv
    simpa using hallowed kv hkv
  have htk : BotModel.updAiTokEnc enc upd = none := by
    unfold BotModel.updAiTokEnc
    rw [htok]
  unfold BotModel.update
  rw [if_pos ⟨by rw [hfil]; rfl, htk⟩]

theorem c10_update_empty_noop_witness :
    BotModel.update sampleEnc sampleDb 7 [("bogus", JsVal.str "x")] =
      (sampleDb, [], none) :=
  c10_update_empty_noop sampleEnc sampleDb 7 [("bogus", JsVal.str "x")]
    (by decide) (by decide)

/-! ## Bot controller (`src/src/controllers/botController.js`)

The HTTP layer is modelled as pure functions from the database state
and the authenticated user to the new state, the provisioner calls
issued (an effect trace), and the HTTP result.  The platform and
AI-provider enumerations live in `config/constants.js`, which is not
in the source tree, so they are parameters; `defaultModel` models
`AI_PROVIDERS[p.toUpperCase()]?.defaultModel`. -/

structure ReqUser where
  id : Nat
  maxBots : Nat
deriving DecidableEq, Repr

structure CreateReq where
  name : String
  platform : String
  platformToken : String
  aiProvider : String
  aiToken : String
  aiModel : Option String
  systemPrompt : Option String
deriving DecidableEq, Repr

inductive CtlResult where
  | created (status : Nat) (bot : BotRow)
  | ok (status : Nat)
  | error (status : Nat) (msg : String)
deriving DecidableEq, Repr

inductive CtlEffect where
  | provStart (botId : Nat)
  | provStop (botId : Nat)
deriving DecidableEq, Repr

/-- The Joi `createBotSchema`: name 3–50 characters, platform and AI
provider from the configured enumerations, non-empty tokens, optional
model, optional system prompt of at most 2000 characters. -/
def validateCreate (platforms providers : List String) (r : CreateReq) :
    Bool :=
  decide (3 ≤ r.name.length) && decide (r.name.length ≤ 50) &&
  platforms.contains r.platform && (r.platformToken ≠ "") &&
  providers.contains r.aiProvider && (r.aiToken ≠ "") &&
  (match r.systemPrompt with
   | some p => decide (p.length ≤ 2000)
   | none => true)

/-- The `Bot.create` argument built by `createBot` from a validated
request. -/
def ctlCreateInput (defaultModel : String → Option String) (u : ReqUser)
    (r : CreateReq) : CreateInput :=
  { userId := u.id
    name := r.name
    platform := r.platform
    platformToken := r.platformToken
    aiProvider := r.aiProvider
    aiToken := r.aiToken
    aiModel :=
      match r.aiModel with
      | some m => m
      | none => (defaultModel r.aiProvider).getD "gpt-4o"
    systemPrompt := r.systemPrompt.getD ""
    configJson := "\x7b\x7d" }

/-- `createBot` (POST `/api/bots`): validate, enforce the plan's bot
ceiling, create the record, fire-and-forget `provisioner.startBot`
(its later outcome `o` is swallowed by the `.catch`), respond 201. -/
def createBotCtl (enc : String → String)
    (platforms providers : List String)
    (defaultModel : String → Option String) (db : BotDB) (u : ReqUser)
    (r : CreateReq) (o : Except String Unit) :
    BotDB × List CtlEffect × CtlResult :=
  if ¬ validateCreate platforms providers r then
    (db, [], .error 400 "ValidationError")
  else if u.maxBots ≤ BotModel.countByUser db u.id then
    (db, [],
      .error 403
        ("Bot limit reached (" ++ toString u.maxBots ++
          "). Upgrade your plan to create more bots."))
  else
    let res := BotModel.create enc db (ctlCreateInput defaultModel u r)
    (res.1, [.provStart res.2.2.id], .created 201 res.2.2)

/-- `startBot` (POST `/api/bots/:id/start`): ownership-scoped lookup,
reject when already running, otherwise delegate to the provisioner. -/
def startBotCtl (db : BotDB) (uid botId : Nat)
    (prov : BotDB → Nat → BotDB × List CtlEffect × Except String Unit) :
    BotDB × List CtlEffect × CtlResult :=
  match BotModel.findById db botId with
  | none => (db, [], .error 404 "Bot not found")
  | some b =>
    if b.user_id ≠ uid then (db, [], .error 404 "Bot not found")
    else if b.status = "running" then
      (db, [], .error 400 "Bot is already running")
    else
      let res := prov db botId
      match res.2.2 with
      | .ok _ => (res.1, res.2.1, .ok 200)
      | .error e => (res.1, res.2.1, .error 500 ("Failed to start bot: " ++ e))

/-- `stopBot` (POST `/api/bots/:id/stop`): ownership-scoped lookup,
reject when not running, otherwise delegate to the provisioner. -/
def stopBotCtl (db : BotDB) (uid botId : Nat)
    (prov : BotDB → Nat → BotDB × List CtlEffect × Except String Unit) :
    BotDB × List CtlEffect × CtlResult :=
  match BotModel.findById db botId with
  | none => (db, [], .error 404 "Bot not found")
  | some b =>
    if b.user_id ≠ uid then (db, [], .error 404 "Bot not found")
    else if b.status ≠ "running" then
      (db, [], .error 400 "Bot is not running")
    else
      let res := prov db botId
      match res.2.2 with
      | .ok _ => (res.1, res.2.1, .ok 200)
      | .error e => (res.1, res.2.1, .error 500 ("Failed to stop bot: " ++ e))

/-- Claim C4: when a user's bot count has reached the plan ceiling,
`createBot` on a well-formed request rejects with the 403 quota error,
issues no provisioning call, and leaves the database (hence the bot
count) unchanged. -/
theorem c4_quota_rejected (enc : String → String)
    (platforms providers : List String) (dm : String → Option String)
    (db : BotDB) (u : ReqUser) (r : CreateReq) (o : Except String Unit)
    (hvalid : validateCreate platforms providers r = true)
    (hquota : u.maxBots ≤ BotModel.countByUser db u.id) :
    createBotCtl enc platforms providers dm db u r o =
      (db, [],
        .error 403
          ("Bot limit reached (" ++ toString u.maxBots ++
            "). Upgrade your plan to create more bots.")) := by
  unfold createBotCtl
  rw [if_neg (not_not_intro hvalid), if_pos hquota]

def sampleReq : CreateReq :=
  { name := "alpha"
    platform := "telegram"
    platformToken := "tg-token"
    aiProvider := "OPENAI"
    aiToken := "sk-test"
    aiModel := some "gpt-4o"
    systemPrompt := some "" }

theorem c4_quota_rejected_witness :
    createBotCtl sampleEnc ["telegram"] ["OPENAI"] (fun _ => none)
        sampleDb ⟨1, 1⟩ sampleReq (Except.ok ()) =
      (sampleDb, [],
        .error 403
          ("Bot limit reached (" ++ toString (1 : Nat) ++
            "). Upgrade your plan to create more bots.")) :=
  c4_quota_rejected sampleEnc ["telegram"] ["OPENAI"] (fun _ => none)
    sampleDb ⟨1, 1⟩ sampleReq (Except.ok ()) (by decide) (by decide)

/-- Claim C5: for an owned bot, `startBot` rejects with a 400 error and
changes nothing when the bot is already `running`, and `stopBot`
rejects with a 400 error and changes nothing when it is not
`running`; neither calls the provisioner in those cases. -/
theorem c5_start_stop_guards (db : BotDB) (uid botId : Nat) (b : BotRow)
    (prov : BotDB → Nat → BotDB × List CtlEffect × Except String Unit)
    (hfind : BotModel.findById db botId = some b)
    (hown : b.user_id = uid) :
    (b.status = "running" →
      startBotCtl db uid botId prov =
        (db, [], .error 400 "Bot is already running")) ∧
    (b.status ≠ "running" →
      stopBotCtl db uid botId prov =
        (db, [], .error 400 "Bot is not running")) := by
  constructor
  · intro hrun
    unfold startBotCtl
    rw [hfind]
    simp [hown, hrun]
  · intro hnrun
    unfold stopBotCtl
    rw [hfind]
    simp [hown, hnrun]

def sampleProv : BotDB → Nat → BotDB × List CtlEffect × Except String Unit :=
  fun db _ => (db, [], Except.ok ())

def runningBot : BotRow :=
  sanitize { createdRow sampleEnc ⟨[], 1⟩ sampleInput with status := "running" }

def runningDb : BotDB :=
  (BotModel.update sampleEnc sampleDb 1 [("status", JsVal.str "running")]).1

theorem c5_start_stop_guards_witness :
    startBotCtl runningDb 1 1 sampleProv =
      (runningDb, [], CtlResult.error 400 "Bot is already running") :=
  (c5_start_stop_guards runningDb 1 1 runningBot sampleProv (by decide)
      (by decide)).1 (by decide)

/-- Claim C8: a valid creation request under the quota always gets the
201 response with the created record, and the record is in the store,
regardless of the later outcome of the fire-and-forget provisioning
call (the response does not depend on it). -/
theorem c8_create_survives_provisioning (enc : String → String)
    (platforms providers : List String) (dm : String → Option String)
    (db : BotDB) (u : ReqUser) (r : CreateReq)
    (hvalid : validateCreate platforms providers r = true)
    (hquota : BotModel.countByUser db u.id < u.maxBots) :
    ∀ o o' : Except String Unit,
      createBotCtl enc platforms providers dm db u r o =
        createBotCtl enc platforms providers dm db u r o' ∧
      (createBotCtl enc platforms providers dm db u r o).2.2 =
        .created 201
          (sanitize (createdRow enc db (ctlCreateInput dm u r))) ∧
      createdRow enc db (ctlCreateInput dm u r) ∈
        (createBotCtl enc platforms providers dm db u r o).1.rows ∧
      BotModel.countByUser
          (createBotCtl enc platforms providers dm db u r o).1 u.id =
        BotModel.countByUser db u.id + 1 := by
  intro o o'
  unfold createBotCtl
  rw [if_neg (not_not_intro hvalid), if_neg (by omega)]
  refine ⟨rfl, rfl, ?_, ?_⟩
  · simp [BotModel.create]
  · simp [BotModel.create, BotModel.countByUser, List.filter_append,
      createdRow, ctlCreateInput]

theorem c8_create_survives_provisioning_witness :
    createBotCtl sampleEnc ["telegram"] ["OPENAI"] (fun _ => none)
        ⟨[], 1⟩ ⟨1, 1⟩ sampleReq (Except.error "provision failed") =
      createBotCtl sampleEnc ["telegram"] ["OPENAI"] (fun _ => none)
        ⟨[], 1⟩ ⟨1, 1⟩ sampleReq (Except.ok ()) :=
  (c8_create_survives_provisioning sampleEnc ["telegram"] ["OPENAI"]
      (fun _ => none) ⟨[], 1⟩ ⟨1, 1⟩ sampleReq (by decide) (by decide)
      (Except.error "provision failed") (Except.ok ())).1

/-! ## In-process runner and inbound dispatch (`SimpleBotRunner`,
Telegram webhook route)

The runner keeps a registry of running bots and a conversation map
keyed by bot id and chat id (the source uses the string key
`botId-chatId`; the pair is the same key).  The OpenAI call is an
oracle parameter (`AiOutcome`); Telegram sends are effects.  Reply
texts are ASCII placeholders for the French literals (their content is
irrelevant to the claims).  The webhook route of the main server
(`app.post('/webhook/telegram/:botId')`) is modelled over an arbitrary
handler, covering both the runner's handler and any handler that
throws internally. -/

structure ChatMsg where
  role : String
  content : String
deriving DecidableEq, Repr

structure RunnerBot where
  token : String
  openaiKey : String
  model : Option String
  systemPrompt : Option String
deriving DecidableEq, Repr

structure RunnerState where
  runningBots : List (Nat × RunnerBot)
  conversations : List ((Nat × Nat) × List ChatMsg)
deriving DecidableEq, Repr

structure TgMessage where
  chatId : Nat
  text : Option String
deriving DecidableEq, Repr

structure TgUpdate where
  message : Option TgMessage
deriving DecidableEq, Repr

/-- Outcome of the external OpenAI chat-completion fetch: transport
failure (the surrounding try/catch), an API error object, or a
response whose first choice may be missing. -/
inductive AiOutcome where
  | fetchFail (e : String)
  | apiError (e : String)
  | ok (content : Option String)
deriving DecidableEq, Repr

inductive RunnerEffect where
  | sendMessage (chatId : Nat) (text : String)
  | incMessages (botId : Nat)
deriving DecidableEq, Repr

/-- Store a conversation history under a key (JavaScript `Map.set`
with in-place array mutation: update if present, else append). -/
def setConv (st : RunnerState) (key : Nat × Nat) (h : List ChatMsg) :
    RunnerState :=
  if (st.conversations.lookup key).isSome then
    { st with conversations :=
        st.conversations.map (fun kv => if kv.1 = key then (key, h) else kv) }
  else
    { st with conversations := st.conversations ++ [(key, h)] }

/-- `SimpleBotRunner.handleTelegramUpdate`: early return when the bot
is not registered or the update has no message; `/start` and `/help`
replies; otherwise push the user turn, shift once when the history
exceeds 10, call OpenAI, and on success append the assistant turn and
send it. -/
def handleTelegramUpdate (st : RunnerState) (botId : Nat) (u : TgUpdate)
    (ai : AiOutcome) : RunnerState × List RunnerEffect × Except String Unit :=
  match st.runningBots.lookup botId with
  | none => (st, [], .ok ())
  | some _bot =>
    match u.message with
    | none => (st, [], .ok ())
    | some msg =>
      let chatId := msg.chatId
      let text := msg.text.getD ""
      if text = "/start" then
        (st, [.sendMessage chatId "greeting"], .ok ())
      else if text = "/help" then
        (st, [.sendMessage chatId "help-text"], .ok ())
      else
        let key := (botId, chatId)
        let history := (st.conversations.lookup key).getD []
        let h1 := history ++ [⟨"user", text⟩]
        let h2 := if h1.length > 10 then h1.tail else h1
        match ai with
        | .fetchFail _ =>
          (setConv st key h2, [.sendMessage chatId "error-apology"], .ok ())
        | .apiError _ =>
          (setConv st key h2, [.sendMessage chatId "problem-apology"], .ok ())
        | .ok content =>
          let aiResponse := content.getD "fallback-reply"
          let h3 := h2 ++ [⟨"assistant", aiResponse⟩]
          (setConv st key h3,
            [.sendMessage chatId aiResponse, .incMessages botId], .ok ())

/-- The Telegram webhook route of the main server: run the dispatch
handler inside try/catch and send HTTP 200 in both branches. -/
def webhookTelegram
    (handler : RunnerState → Nat → TgUpdate → AiOutcome →
      RunnerState × List RunnerEffect × Except String Unit)
    (st : RunnerState) (botId : Nat) (u : TgUpdate) (ai : AiOutcome) :
    RunnerState × List RunnerEffect × Nat :=
  match handler st botId u ai with
  | (st', effs, .ok _) => (st', effs, 200)
  | (st', effs, .error _) => (st', effs, 200)

/-- Claim C7: the Telegram webhook endpoint answers HTTP 200 for every
bot id and payload, whatever the dispatch handler does — including the
runner's handler on unregistered ids and handlers that throw. -/
theorem c7_webhook_always_200
    (handler : RunnerState → Nat → TgUpdate → AiOutcome →
      RunnerState × List RunnerEffect × Except String Unit)
    (st : RunnerState) (botId : Nat) (u : TgUpdate) (ai : AiOutcome) :
    (webhookTelegram handler st botId u ai).2.2 = 200 ∧
    (webhookTelegram handleTelegramUpdate st botId u ai).2.2 = 200 := by
  constructor
  · unfold webhookTelegram
    rcases handler st botId u ai with ⟨st', effs, r⟩
    cases r <;> rfl
  · unfold webhookTelegram
    rcases handleTelegramUpdate st botId u ai with ⟨st', effs, r⟩
    cases r <;> rfl

/-- A registered bot for concrete runs of the runner. -/
def c9Bot : RunnerBot :=
  { token := "t", openaiKey := "k", model := some "m", systemPrompt := none }

def c9State0 : RunnerState :=
  { runningBots := [(1, c9Bot)], conversations := [] }

/-- One non-command text message to bot 1 in chat 5. -/
def c9Update : TgUpdate :=
  { message := some { chatId := 5, text := some "hello" } }

/-- One handled message with a successful OpenAI reply. -/
def c9Step (st : RunnerState) : RunnerState :=
  (handleTelegramUpdate st 1 c9Update (.ok (some "reply"))).1

def c9StateN : Nat → RunnerState
  | 0 => c9State0
  | n + 1 => c9Step (c9StateN n)

/-- Claim C9: the code violates the 10-turn cap.  The handler shifts
at most one entry per incoming user message but appends two entries
per handled message, so after six handled messages the stored history
holds 11 entries, and it keeps growing by one per further message. -/
theorem c9_history_overflow :
    ((((c9StateN 6).conversations.lookup (1, 5)).getD []).length = 11 ∧
      ¬ (((c9StateN 6).conversations.lookup (1, 5)).getD []).length ≤ 10) ∧
    (((c9StateN 7).conversations.lookup (1, 5)).getD []).length = 12 := by
  decide

/-! ## Provisioning backends (`RailwayProvisionerV2.js` REST variant and
the GraphQL `RailwayProvisioner`)

The Railway control-plane calls are recorded as effects.  The external
API is modelled on its success path with the fresh service id `newSid`
as an oracle parameter: the claims concern which control-plane calls
are issued, and in both variants `createService` is issued before any
external response could fail, so the `createService` effect does not
depend on the oracle.  `dec` is `encryption.decrypt` for the
`findByIdWithTokens` call both variants make first. -/

inductive ProvEffect where
  | createService (name : String)
  | setVariables (sid : String)
  | deployService (sid : String)
  | setTelegramWebhook
deriving DecidableEq, Repr

/-- `name.toLowerCase().replace(/[^a-z0-9]/g, '-')`, character-wise. -/
def sanitizeServiceName (name : String) : String :=
  ⟨name.data.map (fun c =>
    let lc := c.toLower
    if ('a' ≤ lc ∧ lc ≤ 'z') ∨ ('0' ≤ lc ∧ lc ≤ '9') then lc else '-')⟩

/-- The deterministic service name
`openclaw-<sanitized name>-<botId.slice(0, 8)>` used by both remote
variants (bot ids are numeric in the model, UUID strings in the
source). -/
def serviceNameOf (name : String) (botId : Nat) : String :=
  "openclaw-" ++ sanitizeServiceName name ++ "-" ++ (toString botId).take 8

def railwayDomain (sid : String) : String :=
  "https://" ++ sid ++ ".up.railway.app"

/-- `RailwayProvisionerV2.provisionBot` (success path): create a fresh
service, set its variables, trigger a deployment, record handle and
`deploying` status on the bot row. -/
def v2ProvisionBot (db : BotDB) (botId : Nat) (botName : String)
    (newSid : String) : BotDB × List ProvEffect × Except String Unit :=
  ((BotModel.update (fun s => s) db botId
      [("railway_service_id", .str newSid), ("status", .str "deploying"),
       ("webhook_url", .str (railwayDomain newSid)),
       ("internal_port", .num 3000)]).1,
    [.createService (serviceNameOf botName botId), .setVariables newSid,
      .deployService newSid],
    .ok ())

/-- `RailwayProvisionerV2.startBot`: look the bot up with tokens; if it
already has a `railway_service_id`, just redeploy that service
(`restartService`); otherwise provision a new one. -/
def v2StartBot (dec : String → String) (db : BotDB) (botId : Nat)
    (newSid : String) : BotDB × List ProvEffect × Except String Unit :=
  match BotModel.findById db botId with
  | none => (db, [], .error "Bot not found")
  | some bot =>
    match BotModel.findByIdWithTokens dec db botId with
    | none => (db, [], .error "Failed to get bot tokens")
    | some _ =>
      match bot.railway_service_id with
      | some sid => (db, [.deployService sid], .ok ())
      | none => v2ProvisionBot db botId bot.name newSid

/-- The GraphQL `RailwayProvisioner.startBot`: it looks the bot up with
tokens and then always calls `provisionBot`, which begins with
`createOpenClawService` — it never checks `railway_service_id`
(success path; the webhook configuration and the final `running`
update follow the deployment wait). -/
def v1StartBot (dec : String → String) (db : BotDB) (botId : Nat)
    (newSid : String) : BotDB × List ProvEffect × Except String Unit :=
  match BotModel.findById db botId with
  | none => (db, [], .error "Bot not found")
  | some bot =>
    match BotModel.findByIdWithTokens dec db botId with
    | none => (db, [], .error "Failed to get bot tokens")
    | some _ =>
      ((BotModel.update (fun s => s) db botId
          [("railway_service_id", .str newSid), ("status", .str "running"),
           ("webhook_url", .str (railwayDomain newSid)),
           ("internal_port", .num 3000)]).1,
        [.createService (serviceNameOf bot.name botId),
          .setVariables newSid, .deployService newSid, .setTelegramWebhook],
        .ok ())

/-- Identity decryption oracle for concrete runs. -/
def sampleDec : String → String := fun s => s

/-- `sampleDb` with the bot's deployment handle assigned. -/
def c6Db : BotDB :=
  (BotModel.update sampleEnc sampleDb 1
    [("railway_service_id", JsVal.str "svc-1")]).1

/-- The sanitized bot row of `c6Db` as `findById` returns it. -/
def c6Bot : BotRow :=
  sanitize
    { createdRow sampleEnc ⟨[], 1⟩ sampleInput with
      railway_service_id := some "svc-1" }

/-- Claim C6 fails as stated: in the GraphQL backend variant,
`startBot` on a bot that already has the deployment handle `svc-1`
still issues a `createService` call — it creates a new remote service
instead of redeploying the existing handle. -/
theorem c6_v1_creates_duplicate :
    (BotModel.findById c6Db 1).map (fun b => b.railway_service_id) =
      some (some "svc-1") ∧
    ProvEffect.createService (serviceNameOf "alpha" 1) ∈
      (v1StartBot sampleDec c6Db 1 "svc-new").2.1 := by
  decide

/-- Claim C6 (amended): in the REST (V2) backend variant, `startBot`
on a bot with an assigned deployment handle redeploys exactly that
handle and issues no `createService` call; the GraphQL variant does
not have this property. -/
theorem c6_v2_start_reuses_handle (dec : String → String) (db : BotDB)
    (botId : Nat) (bot : BotRow) (sid newSid : String)
    (hfind : BotModel.findById db botId = some bot)
    (htok : (BotModel.findByIdWithTokens dec db botId).isSome = true)
    (hsid : bot.railway_service_id = some sid) :
    v2StartBot dec db botId newSid = (db, [.deployService sid], .ok ()) ∧
    ∀ n, ProvEffect.createService n ∉ (v2StartBot dec db botId newSid).2.1 := by
  obtain ⟨ft, hft⟩ := Option.isSome_iff_exists.mp htok
  have hres : v2StartBot dec db botId newSid =
      (db, [.deployService sid], .ok ()) := by
    unfold v2StartBot
    rw [hfind, hft]
    simp [hsid]
  refine ⟨hres, ?_⟩
  intro n hmem
  rw [hres] at hmem
  simp at hmem

theorem c6_v2_start_reuses_handle_witness :
    v2StartBot sampleDec c6Db 1 "svc-new" =
      (c6Db, [ProvEffect.deployService "svc-1"], Except.ok ()) :=
  (c6_v2_start_reuses_handle sampleDec c6Db 1
      c6Bot "svc-1" "svc-new" (by decide) (by decide) (by decide)).1
